import Mathlib

/-!
Shallow embedding of the Rag_system_aws repository
(`src/memory_manager.py`, `src/Rag_democode.py`, `src/memory_test.py`)
with proofs of the specification's claims about it.
-/

namespace RagAws

/-! Python string helpers used by the source (`str.lower`, `str.strip`).
These model Python's behaviour on the ASCII range, which covers every
string the program compares against (the strategy-name literals and the
whitespace characters of `str.strip`). -/

/-- ASCII lowercasing of one character, as Python's `str.lower` acts on
the ASCII range: `A`..`Z` (codes 65..90) map 32 code points up, all other
characters are unchanged. -/
def pyLowerChar (c : Char) : Char :=
  if 65 ≤ c.toNat ∧ c.toNat ≤ 90 then Char.ofNat (c.toNat + 32) else c

/-- Python's `str.lower`, modelled characterwise on the ASCII range. -/
def pyLower (s : String) : String :=
  String.mk (s.data.map pyLowerChar)

/-- Whitespace test of Python's `str.strip` (space, tab, newline,
carriage return, vertical tab, form feed). -/
def pyIsSpace (c : Char) : Bool :=
  c = ' ' || c = '\t' || c = '\n' || c = '\r' ||
    c = Char.ofNat 11 || c = Char.ofNat 12

/-- Python's `str.strip`: drop leading and trailing whitespace. -/
def pyStrip (s : String) : String :=
  String.mk (((s.data.dropWhile pyIsSpace).reverse.dropWhile pyIsSpace).reverse)

/-! Embedding of `src/memory_manager.py`. -/

/-- Configuration of the memory object returned by
`MemoryManager._initialize_memory`: one constructor per external
memory class the source instantiates, holding exactly the arguments
the source passes to it. -/
inductive MemoryObject where
  | conversationBufferMemory (memory_key : String) (return_messages : Bool)
  | conversationBufferWindowMemory (k : Nat) (memory_key : String) (return_messages : Bool)
  | conversationSummaryBufferMemory (memory_key : String) (return_messages : Bool)
  | conversationTokenBufferMemory (memory_key : String) (return_messages : Bool)
  | conversationKGMemory (memory_key : String)
deriving Repr, DecidableEq

/-- Strategy dispatch of `MemoryManager._initialize_memory`
(src/memory_manager.py lines 29-51): a chain of equality tests on the
(already lowercased) strategy name; an unrecognized name raises
`ValueError("Unsupported memory type: ...")`, modelled as `.error`.
Note that the `"summary"` branch returns a plain `ConversationBufferMemory`
(the source comments it as a placeholder). -/
def init_memory (window_size : Nat) (memory_type : String) : Except String MemoryObject :=
  if memory_type = "buffer" then
    .ok (.conversationBufferMemory "chat_history" true)
  else if memory_type = "window" then
    .ok (.conversationBufferWindowMemory window_size "chat_history" true)
  else if memory_type = "summary" then
    .ok (.conversationBufferMemory "chat_history" true)
  else if memory_type = "summary_buffer" then
    .ok (.conversationSummaryBufferMemory "chat_history" true)
  else if memory_type = "token_buffer" then
    .ok (.conversationTokenBufferMemory "chat_history" true)
  else if memory_type = "kg" then
    .ok (.conversationKGMemory "chat_history")
  else
    .error ("Unsupported memory type: " ++ memory_type)

/-- State of a constructed `MemoryManager` (src/memory_manager.py
lines 17-27): the lowercased strategy name, the two numeric parameters,
and the initialized memory object. -/
structure MemoryManager where
  memory_type : String
  window_size : Nat
  token_limit : Nat
  memory : MemoryObject
deriving Repr, DecidableEq

/-- Constructor `MemoryManager.__init__`: lowercases the requested
strategy name, then dispatches; a `ValueError` raised by the dispatch
escapes the constructor, so no instance is produced (`.error`). -/
def MemoryManager.make (memory_type : String) (window_size : Nat) (token_limit : Nat) :
    Except String MemoryManager :=
  let mt := pyLower memory_type
  (init_memory window_size mt).map
    (fun m => { memory_type := mt, window_size := window_size,
                token_limit := token_limit, memory := m })

/-- A chat message (the spec's Exchange): a role and a content string. -/
structure Message where
  role : String
  content : String
deriving Repr, DecidableEq

/-- Modelled from the spec: the conversation store's underlying state,
owned by the external memory library (not under src/), is the ordered
list of recorded (user input, bot output) pairs; `record` appends one
pair (spec section 4.3, `save_context` in src/memory_manager.py line 55). -/
def save_conversation (st : List (String × String)) (user_input bot_output : String) :
    List (String × String) :=
  st ++ [(user_input, bot_output)]

/-- Modelled from the spec: the strategy's materialized view of the
stored exchange pairs ("last N turns for windowed, all turns for
full-buffer", spec section 4.3). The reduction performed by the
summary-with-buffer-cap, token-capped and knowledge-graph strategies is
delegated to the external library and not specified, so those views are
modelled as the full view; no claim below depends on their reduction,
only on the view of an empty store being empty, which any reduction of
no history satisfies. -/
def memoryView (m : MemoryObject) (st : List (String × String)) :
    List (String × String) :=
  match m with
  | .conversationBufferMemory _ _ => st
  | .conversationBufferWindowMemory k _ _ => st.drop (st.length - k)
  | .conversationSummaryBufferMemory _ _ => st
  | .conversationTokenBufferMemory _ _ => st
  | .conversationKGMemory _ => st

/-- Flattening of exchange pairs into the role-tagged message list the
history call returns: each recorded pair contributes a user message
followed by an assistant message, in chronological order. -/
def flattenPairs : List (String × String) → List Message
  | [] => []
  | (u, a) :: rest => ⟨"user", u⟩ :: ⟨"assistant", a⟩ :: flattenPairs rest

/-- Method `MemoryManager.get_chat_history` (src/memory_manager.py
lines 57-59): returns the memory object's current materialized view of
the conversation. -/
def get_chat_history (m : MemoryObject) (st : List (String × String)) : List Message :=
  flattenPairs (memoryView m st)

/-- Method `MemoryManager.clear_memory` (src/memory_manager.py
lines 61-63): `self.memory.clear()` discards all stored conversation
data, for every memory object. -/
def clear_memory (_st : List (String × String)) : List (String × String) :=
  []

/-- Recording of a list of exchanges in order, by repeated
`save_conversation` calls. -/
def recordAll (st : List (String × String)) (ps : List (String × String)) :
    List (String × String) :=
  ps.foldl (fun s p => save_conversation s p.1 p.2) st

/-! Embedding of `src/Rag_democode.py`. -/

/-- JSON values, as exchanged with the search collaborator. Scores are
modelled as rationals: the source performs no arithmetic on them, only
construction and pass-through. -/
inductive Json where
  | str (s : String)
  | num (q : ℚ)
  | bool (b : Bool)
  | null
  | arr (elems : List Json)
  | obj (fields : List (String × Json))

/-- Dictionary access `j[key]` on a JSON value: the field named `key`
when `j` is an object, otherwise nothing. -/
def jsonGet (j : Json) (key : String) : Option Json :=
  match j with
  | .obj fields => fields.lookup key
  | _ => none

/-- Extraction `res.json()["hits"]["hits"]` (src/Rag_democode.py
line 41): a response without that path, or whose value is not a list,
raises when accessed or iterated; modelled as `.error`
(the spec's MalformedResponse). -/
def extractHits (res : Json) : Except String (List Json) :=
  match jsonGet res "hits" with
  | none => .error "KeyError: hits"
  | some inner =>
    match jsonGet inner "hits" with
    | none => .error "KeyError: hits"
    | some (.arr hits) => .ok hits
    | some _ => .error "MalformedResponse: hits.hits is not a list"

/-- One HTTP search request issued by the retriever: target URL and
JSON body (src/Rag_democode.py line 40). -/
structure SearchRequest where
  url : String
  body : Json

/-- State of class `RetrievalModel` (src/Rag_democode.py lines 24-28).
The embedding collaborator is a function from text to a vector of
numbers (spec section 6: external black box). -/
structure RetrievalModel where
  embedder : String → List ℚ
  index_name : String
  opensearch_url : String

/-- Method `RetrievalModel.embed_text` (src/Rag_democode.py
lines 30-31): delegates to the embedding collaborator. -/
def RetrievalModel.embed_text (rm : RetrievalModel) (text : String) : List ℚ :=
  rm.embedder text

/-- Search body built by `RetrievalModel.retrieve` (src/Rag_democode.py
lines 35-38): `{size: top_k, query: {knn: {embedding: {vector: query_emb, k: top_k}}}}`. -/
def searchBody (query_emb : List ℚ) (top_k : Nat) : Json :=
  .obj [("size", .num top_k),
        ("query", .obj [("knn", .obj [("embedding",
          .obj [("vector", .arr (query_emb.map .num)), ("k", .num top_k)])])])]

/-- Method `RetrievalModel.retrieve` (src/Rag_democode.py lines 33-42),
with the HTTP transport passed in as a function from request to
response (`.error` = transport failure, the spec's RetrievalUnavailable).
Returns the list of requests issued together with the outcome, so that
how many calls occur is part of the model. -/
def RetrievalModel.retrieve (rm : RetrievalModel)
    (search : SearchRequest → Except String Json)
    (query : String) (top_k : Nat) :
    List SearchRequest × Except String (List Json) :=
  let query_emb := rm.embed_text query
  let search_query := searchBody query_emb top_k
  let url := rm.opensearch_url ++ "/" ++ rm.index_name ++ "/_search"
  let req : SearchRequest := ⟨url, search_query⟩
  ([req], (search req).bind extractHits)

/-- Score field `hit["_score"]` of one hit, when present and numeric. -/
def scoreOf (hit : Json) : Option ℚ :=
  match jsonGet hit "_score" with
  | some (.num q) => some q
  | _ => none

/-- Sortedness of a hit list by descending relevance score: every
adjacent pair of hits carries numeric scores, the later one not above
the earlier one. -/
def SortedByScoreDesc (hits : List Json) : Prop :=
  List.Chain' (fun a b => ∃ qa qb, scoreOf a = some qa ∧ scoreOf b = some qb ∧ qb ≤ qa) hits

/-- Size field of a search body, when present and numeric. -/
def bodySize (body : Json) : Option ℚ :=
  match jsonGet body "size" with
  | some (.num q) => some q
  | _ => none

/-- Modelled from the spec: contract of the external vector search
collaborator (spec sections 3 and 6), which is not under src/ — a
successful response parses to at most the requested `size` hits,
sorted by descending `_score`. -/
def SearchContract (search : SearchRequest → Except String Json) : Prop :=
  ∀ req res hits, search req = .ok res → extractHits res = .ok hits →
    (∀ n, bodySize req.body = some n → (hits.length : ℚ) ≤ n) ∧ SortedByScoreDesc hits


/-- Conversion of one retrieved hit into the entry
`{id: doc["_id"], score: doc["_score"], content: doc["_source"]["content"]}`
of the context list (src/Rag_democode.py lines 109-119); a hit missing
one of the keys raises a `KeyError` inside the `try` block, modelled
as `.error`. -/
def docEntry (doc : Json) : Except String Json :=
  match jsonGet doc "_id" with
  | none => .error "KeyError: _id"
  | some i =>
    match jsonGet doc "_score" with
    | none => .error "KeyError: _score"
    | some s =>
      match jsonGet doc "_source" with
      | none => .error "KeyError: _source"
      | some src =>
        match jsonGet src "content" with
        | none => .error "KeyError: content"
        | some c => .ok (.obj [("id", i), ("score", s), ("content", c)])

/-- Conversion of the whole retrieved list, failing on the first bad
hit, as the list comprehension of src/Rag_democode.py lines 110-117 does. -/
def docEntries : List Json → Except String (List Json)
  | [] => .ok []
  | doc :: rest => do
    let e ← docEntry doc
    let es ← docEntries rest
    .ok (e :: es)

/-- Prompt built for the generator (src/Rag_democode.py lines 122-131):
the fixed instruction template around the serialized context and the
stripped question. -/
def buildPrompt (context_json : String) (question : String) : String :=
  "You are a helpful assistant.\n" ++
  "I will give you JSON search results from OpenSearch.\n" ++
  "Use them to answer the user\x27s question clearly and concisely.\n" ++
  "If the information is not available, say so.\n\n" ++
  "Search Results (JSON):\n" ++ context_json ++ "\n\n" ++
  "Question: " ++ question ++ "\nAnswer:"

/-- Result of one run of the main flow: the session message list after
the run, and how many retriever and generator calls were made. -/
structure FlowResult where
  messages : List Message
  retrieverCalls : Nat
  generatorCalls : Nat
deriving Repr, DecidableEq

/-- Main orchestration flow (src/Rag_democode.py lines 100-144), with
the collaborators passed in: `retrieveFn` the retriever outcome,
`generateFn` the generator (`query_bedrock`) outcome, `dumps` the JSON
serializer (`json.dumps(..., indent=2)`, an external library routine
whose exact text no behaviour here depends on). The guard is the
source's `if send_clicked and user_text.strip():`; inside the `try`,
any raised error is caught by the `except` and appended as an
assistant message `"Error: " ++ e` instead of an answer. -/
def mainFlow (send_clicked : Bool) (user_text : String) (messages : List Message)
    (retrieveFn : String → Nat → Except String (List Json))
    (generateFn : String → Except String String)
    (dumps : Json → String) : FlowResult :=
  if send_clicked ∧ pyStrip user_text ≠ "" then
    let q := pyStrip user_text
    let messages1 := messages ++ [⟨"user", q⟩]
    match retrieveFn q 3 with
    | .error e =>
      ⟨messages1 ++ [⟨"assistant", "Error: " ++ e⟩], 1, 0⟩
    | .ok retrieved_docs =>
      match docEntries retrieved_docs with
      | .error e =>
        ⟨messages1 ++ [⟨"assistant", "Error: " ++ e⟩], 1, 0⟩
      | .ok entries =>
        let context_json := dumps (.arr entries)
        let prompt := buildPrompt context_json q
        match generateFn prompt with
        | .error e =>
          ⟨messages1 ++ [⟨"assistant", "Error: " ++ e⟩], 1, 1⟩
        | .ok answer =>
          ⟨messages1 ++ [⟨"assistant", answer⟩], 1, 1⟩
  else
    ⟨messages, 0, 0⟩

/-! Helper lemmas. -/

/-- Output of `pyLowerChar` is never an uppercase ASCII letter. -/
theorem pyLowerChar_not_upper (c : Char) :
    ¬ (65 ≤ (pyLowerChar c).toNat ∧ (pyLowerChar c).toNat ≤ 90) := by
  unfold pyLowerChar
  split
  · rename_i h
    have hv : (Char.ofNat (c.toNat + 32)).toNat = c.toNat + 32 := by
      unfold Char.ofNat
      rw [dif_pos]
      · rfl
      · exact Or.inl (by omega)
    rw [hv]
    omega
  · rename_i h
    exact h

/-- Characters outside the uppercase ASCII range are fixed by `pyLowerChar`. -/
theorem pyLowerChar_eq_self (c : Char) (h : ¬ (65 ≤ c.toNat ∧ c.toNat ≤ 90)) :
    pyLowerChar c = c := by
  unfold pyLowerChar
  rw [if_neg h]

/-- ASCII lowercasing of a character is idempotent. -/
theorem pyLowerChar_idem (c : Char) : pyLowerChar (pyLowerChar c) = pyLowerChar c :=
  pyLowerChar_eq_self _ (pyLowerChar_not_upper c)

/-- ASCII lowercasing of a string is idempotent. -/
theorem pyLower_idem (s : String) : pyLower (pyLower s) = pyLower s := by
  show String.mk ((s.data.map pyLowerChar).map pyLowerChar) = String.mk (s.data.map pyLowerChar)
  rw [List.map_map]
  exact congrArg String.mk (List.map_congr_left (fun a _ => pyLowerChar_idem a))

/-- Flattening exchange pairs into messages distributes over append. -/
theorem flattenPairs_append (xs ys : List (String × String)) :
    flattenPairs (xs ++ ys) = flattenPairs xs ++ flattenPairs ys := by
  induction xs with
  | nil => rfl
  | cons p rest ih =>
      obtain ⟨u, a⟩ := p
      simp [flattenPairs, ih]

/-- Recording a list of exchanges one by one appends them to the store. -/
theorem recordAll_eq_append (st ps : List (String × String)) :
    recordAll st ps = st ++ ps := by
  induction ps generalizing st with
  | nil => simp [recordAll]
  | cons p rest ih =>
      show recordAll (save_conversation st p.1 p.2) rest = st ++ p :: rest
      rw [ih]
      simp [save_conversation]

/-! Claims about `src/memory_manager.py`. -/

/-- C1: for every strategy name whose lowercasing is not one of
`buffer`, `window`, `summary`, `summary_buffer`, `token_buffer`, `kg`,
constructing the conversation store fails with the unsupported-strategy
error and no `MemoryManager` instance is produced. -/
theorem C1_unsupported_strategy (s : String) (w t : Nat)
    (h : pyLower s ∉ ["buffer", "window", "summary", "summary_buffer", "token_buffer", "kg"]) :
    MemoryManager.make s w t = .error ("Unsupported memory type: " ++ pyLower s) := by
  simp only [List.mem_cons, List.not_mem_nil, or_false, not_or] at h
  obtain ⟨h1, h2, h3, h4, h5, h6⟩ := h
  unfold MemoryManager.make init_memory
  simp only [if_neg h1, if_neg h2, if_neg h3, if_neg h4, if_neg h5, if_neg h6]
  rfl

/-- Witness for C1 at the spec's own example input `strategy="invalid"`. -/
theorem C1_unsupported_strategy_witness :
    MemoryManager.make "invalid" 3 1000
      = .error ("Unsupported memory type: " ++ pyLower "invalid") :=
  C1_unsupported_strategy "invalid" 3 1000 (by decide)

/-- C2: constructing the store with strategy `summary` yields exactly the
same memory object configuration as strategy `buffer` — a plain full
buffer — so the summary request is silently substituted, not rejected. -/
theorem C2_summary_is_buffer (w t : Nat) :
    (MemoryManager.make "summary" w t).map MemoryManager.memory
        = (MemoryManager.make "buffer" w t).map MemoryManager.memory ∧
    (MemoryManager.make "summary" w t).map MemoryManager.memory
        = .ok (.conversationBufferMemory "chat_history" true) :=
  ⟨rfl, rfl⟩

/-- C10: construction is case-insensitive in the strategy name — any
name and its lowercasing give identical outcomes (same success/failure
and, on success, the same stored configuration), because the name is
lowercased before dispatch and lowercasing is idempotent. -/
theorem C10_case_insensitive (s : String) (w t : Nat) :
    MemoryManager.make s w t = MemoryManager.make (pyLower s) w t := by
  unfold MemoryManager.make
  rw [pyLower_idem]

/-- C7: for every memory object (every strategy in the enumerated set)
and every store state, clearing and then reading the history returns
the empty sequence. -/
theorem C7_reset_empties (m : MemoryObject) (st : List (String × String)) :
    get_chat_history m (clear_memory st) = [] := by
  cases m <;> simp [get_chat_history, clear_memory, memoryView, flattenPairs]

/-- C6: under the full-buffer strategy, and under the windowed strategy
with a positive window, recording an exchange and immediately reading
the history yields a sequence ending with the new exchange: the new
user message directly followed by the new assistant message. -/
theorem C6_record_then_history (st : List (String × String)) (u a mkey : String)
    (rmsg : Bool) (k : Nat) (hk : 1 ≤ k) :
    (∃ p, get_chat_history (.conversationBufferMemory mkey rmsg) (save_conversation st u a)
        = p ++ [⟨"user", u⟩, ⟨"assistant", a⟩]) ∧
    (∃ p, get_chat_history (.conversationBufferWindowMemory k mkey rmsg) (save_conversation st u a)
        = p ++ [⟨"user", u⟩, ⟨"assistant", a⟩]) := by
  constructor
  · exact ⟨flattenPairs st, by
      simp [get_chat_history, memoryView, save_conversation, flattenPairs_append, flattenPairs]⟩
  · refine ⟨flattenPairs (st.drop (st.length + 1 - k)), ?_⟩
    have hlen : st.length + 1 - k ≤ st.length := by omega
    simp only [get_chat_history, memoryView, save_conversation]
    rw [List.length_append, List.length_singleton,
      List.drop_append_of_le_length hlen, flattenPairs_append]
    rfl

/-- Witness for C6 with a one-exchange store, window size 1. -/
theorem C6_record_then_history_witness :
    (∃ p, get_chat_history (.conversationBufferMemory "chat_history" true)
        (save_conversation [("Hello", "Hi there!")] "What is AI?" "AI means Artificial Intelligence.")
        = p ++ [⟨"user", "What is AI?"⟩, ⟨"assistant", "AI means Artificial Intelligence."⟩]) ∧
    (∃ p, get_chat_history (.conversationBufferWindowMemory 1 "chat_history" true)
        (save_conversation [("Hello", "Hi there!")] "What is AI?" "AI means Artificial Intelligence.")
        = p ++ [⟨"user", "What is AI?"⟩, ⟨"assistant", "AI means Artificial Intelligence."⟩]) :=
  C6_record_then_history [("Hello", "Hi there!")] "What is AI?"
    "AI means Artificial Intelligence." "chat_history" true 1 (by decide)

/-- C8: under the windowed strategy with window size W, after recording
N > W exchanges the materialized view is exactly the W most recent
exchanges in chronological order — so it has length W (hence at most W)
— and the returned history is their flattening. -/
theorem C8_window_keeps_last_W (W : Nat) (mkey : String) (rmsg : Bool)
    (ps : List (String × String)) (h : W < ps.length) :
    memoryView (.conversationBufferWindowMemory W mkey rmsg) (recordAll [] ps)
        = ps.drop (ps.length - W) ∧
    (ps.drop (ps.length - W)).length = W ∧
    get_chat_history (.conversationBufferWindowMemory W mkey rmsg) (recordAll [] ps)
        = flattenPairs (ps.drop (ps.length - W)) := by
  rw [recordAll_eq_append]
  refine ⟨by simp [memoryView], ?_, by simp [get_chat_history, memoryView]⟩
  rw [List.length_drop]
  omega

/-- Witness for C8 with window size 1 and two recorded exchanges. -/
theorem C8_window_keeps_last_W_witness :
    memoryView (.conversationBufferWindowMemory 1 "chat_history" true)
        (recordAll [] [("Hello", "Hi there!"), ("What is AI?", "AI means Artificial Intelligence.")])
        = [("Hello", "Hi there!"), ("What is AI?", "AI means Artificial Intelligence.")].drop (2 - 1) ∧
    ([("Hello", "Hi there!"), ("What is AI?", "AI means Artificial Intelligence.")].drop (2 - 1)).length = 1 ∧
    get_chat_history (.conversationBufferWindowMemory 1 "chat_history" true)
        (recordAll [] [("Hello", "Hi there!"), ("What is AI?", "AI means Artificial Intelligence.")])
        = flattenPairs ([("Hello", "Hi there!"), ("What is AI?", "AI means Artificial Intelligence.")].drop (2 - 1)) :=
  C8_window_keeps_last_W 1 "chat_history" true
    [("Hello", "Hi there!"), ("What is AI?", "AI means Artificial Intelligence.")] (by decide)

/-! Claims about `src/Rag_democode.py`. -/

/-- C3: for every blank or whitespace-only query, one run of the main
flow makes no retriever call and no generator call and leaves the
session message list unchanged — a no-op, not an error (the flow is a
total function, so nothing is raised). This holds whether or not the
send button registered as clicked. -/
theorem C3_blank_query_noop (send_clicked : Bool) (user_text : String)
    (messages : List Message)
    (retrieveFn : String → Nat → Except String (List Json))
    (generateFn : String → Except String String)
    (dumps : Json → String)
    (h : pyStrip user_text = "") :
    mainFlow send_clicked user_text messages retrieveFn generateFn dumps
      = ⟨messages, 0, 0⟩ := by
  unfold mainFlow
  rw [if_neg]
  simp [h]

/-- Witness for C3 on the whitespace-only query made of a space, a tab
and a newline. -/
theorem C3_blank_query_noop_witness :
    mainFlow true " \t\n" [⟨"user", "earlier"⟩] (fun _ _ => .ok []) (fun _ => .ok "answer")
        (fun _ => "[]")
      = ⟨[⟨"user", "earlier"⟩], 0, 0⟩ :=
  C3_blank_query_noop true " \t\n" [⟨"user", "earlier"⟩] (fun _ _ => .ok [])
    (fun _ => .ok "answer") (fun _ => "[]") (by decide)

/-- C4: for every non-blank query, if the retriever fails then the flow
makes no generator call, still records the turn with the error text as
the assistant content (the literal text `Error: ` followed by the error
detail), and returns normally — no unhandled failure escapes, since
`mainFlow` is a total function. -/
theorem C4_retriever_failure (user_text : String) (messages : List Message)
    (retrieveFn : String → Nat → Except String (List Json))
    (generateFn : String → Except String String)
    (dumps : Json → String) (e : String)
    (hq : pyStrip user_text ≠ "")
    (hr : retrieveFn (pyStrip user_text) 3 = .error e) :
    mainFlow true user_text messages retrieveFn generateFn dumps
      = ⟨messages ++ [⟨"user", pyStrip user_text⟩, ⟨"assistant", "Error: " ++ e⟩], 1, 0⟩ := by
  unfold mainFlow
  rw [if_pos ⟨rfl, hq⟩]
  simp [hr]

/-- Witness for C4: the retriever reports RetrievalUnavailable and the
flow records it without calling the generator. -/
theorem C4_retriever_failure_witness :
    mainFlow true "What is AI?" [] (fun _ _ => .error "RetrievalUnavailable")
        (fun _ => .ok "never used") (fun _ => "[]")
      = ⟨[⟨"user", pyStrip "What is AI?"⟩, ⟨"assistant", "Error: " ++ "RetrievalUnavailable"⟩], 1, 0⟩ := by
  have h := C4_retriever_failure "What is AI?" [] (fun _ _ => .error "RetrievalUnavailable")
    (fun _ => .ok "never used") (fun _ => "[]") "RetrievalUnavailable" (by decide) rfl
  simpa using h

/-- C9: for every query and requested size, `retrieve` embeds the query
and issues exactly one search request, to the index's `_search`
endpoint, whose JSON body is exactly
`{size: top_k, query: {knn: {embedding: {vector: <query embedding>, k: top_k}}}}`,
and its outcome is obtained by extracting `hits.hits` from the
transport's response. -/
theorem C9_request_shape (rm : RetrievalModel)
    (search : SearchRequest → Except String Json) (q : String) (k : Nat) :
    (rm.retrieve search q k).1
        = [⟨rm.opensearch_url ++ "/" ++ rm.index_name ++ "/_search",
            Json.obj [("size", .num k),
              ("query", .obj [("knn", .obj [("embedding",
                .obj [("vector", .arr ((rm.embedder q).map .num)),
                      ("k", .num k)])])])]⟩] ∧
    (rm.retrieve search q k).2
        = (search ⟨rm.opensearch_url ++ "/" ++ rm.index_name ++ "/_search",
            Json.obj [("size", .num k),
              ("query", .obj [("knn", .obj [("embedding",
                .obj [("vector", .arr ((rm.embedder q).map .num)),
                      ("k", .num k)])])])]⟩).bind extractHits :=
  ⟨rfl, rfl⟩

/-- C5: for every non-blank query and every positive `top_k`, when the
transport satisfies the vector search collaborator's contract
(`SearchContract`) and `retrieve` succeeds, the returned hit list has
at most `top_k` elements and is sorted by descending relevance score —
the source passes the collaborator's hit list through unchanged, after
requesting exactly `size = top_k`. -/
theorem C5_retrieve_bounded_sorted (rm : RetrievalModel)
    (search : SearchRequest → Except String Json) (q : String) (k : Nat)
    (hc : SearchContract search) (_hk : 0 < k) (hits : List Json)
    (hres : (rm.retrieve search q k).2 = .ok hits) :
    hits.length ≤ k ∧ SortedByScoreDesc hits := by
  have hres' : (search ⟨rm.opensearch_url ++ "/" ++ rm.index_name ++ "/_search",
      searchBody (rm.embed_text q) k⟩).bind extractHits = .ok hits := hres
  cases hsr : search ⟨rm.opensearch_url ++ "/" ++ rm.index_name ++ "/_search",
      searchBody (rm.embed_text q) k⟩ with
  | error e =>
      rw [hsr] at hres'
      exact Except.noConfusion hres'
  | ok res =>
      rw [hsr] at hres'
      have hex : extractHits res = .ok hits := hres'
      obtain ⟨hsize, hsorted⟩ := hc _ res hits hsr hex
      refine ⟨?_, hsorted⟩
      have hb : bodySize (searchBody (rm.embed_text q) k) = some (k : ℚ) := rfl
      have hcast := hsize (k : ℚ) hb
      exact_mod_cast hcast

/-- Successful search response carrying no hits: `{hits: {hits: []}}`. -/
def emptyHitsResponse : Json :=
  .obj [("hits", .obj [("hits", .arr [])])]

/-- Stub search transport used to evaluate the retrieval claims: it
answers a request whose body asks for size 3 with an empty hit list and
refuses any other request. -/
def searchStub (req : SearchRequest) : Except String Json :=
  if bodySize req.body = some 3 then .ok emptyHitsResponse else .error "RetrievalUnavailable"

/-- Stub retrieval model with a constant embedder, pointed at the
source's configured index and endpoint. -/
def rmStub : RetrievalModel :=
  ⟨fun _ => [], "rag-index", "http://localhost:9200"⟩

/-- Stub transport satisfies the search collaborator's contract. -/
theorem searchStub_contract : SearchContract searchStub := by
  intro req res hits hok hex
  unfold searchStub at hok
  by_cases hb : bodySize req.body = some 3
  · rw [if_pos hb] at hok
    injection hok with hok'
    subst hok'
    have h2 : extractHits emptyHitsResponse = .ok [] := rfl
    rw [h2] at hex
    injection hex with hex'
    subst hex'
    constructor
    · intro n hn
      rw [hb] at hn
      injection hn with hn'
      subst hn'
      norm_num
    · simp [SortedByScoreDesc]
  · rw [if_neg hb] at hok
    exact Except.noConfusion hok

/-- Witness for C5: against the stub transport, retrieving for the
spec's example query with `top_k = 3` yields a hit list of length at
most 3, sorted. -/
theorem C5_retrieve_bounded_sorted_witness :
    ([] : List Json).length ≤ 3 ∧ SortedByScoreDesc [] :=
  C5_retrieve_bounded_sorted rmStub searchStub "What is AI?" 3 searchStub_contract
    (by decide) [] rfl

end RagAws
